import Mathlib

/-!
# Verification model of `src/web_app.py` (SICOM AI Report Generator)

A shallow embedding of the single-file Streamlit application.  The app is a
straight-line pipeline triggered by one button press:

  1. presence check on the two uploaded files (lines 63-66);
  2. spreadsheet normalization (lines 78-87): `pd.read_excel(...,
     sheet_name='Income Statement', header=3, index_col=0)`, drop of the
     first data column, drop of the row labeled `3 Months Ending`, then
     `pd.to_numeric(df.loc['Net Revenue'], errors='coerce')`;
  3. chart rendering of the revenue series (lines 92-102);
  4. PDF text extraction, concatenating every page (lines 107-111);
  5. metric selection `iloc[-1]` / `iloc[-5]` and `generate_summary`
     (lines 115-117, 27-48), which computes the growth percentage, builds the
     prompt and performs one chat-completion call;
  6. report assembly with a font-fallback `try/except FileNotFoundError`
     (lines 121-147) and the download button (lines 155-160);
  with a single `except Exception` handler around steps 2-6 (lines 162-164).

Numbers: `revenue_data` is a pandas Series produced by `pd.to_numeric`, so
scalar reads (`iloc`) yield numpy scalars.  Arithmetic on numpy scalars
follows IEEE-754: division by zero yields `inf`/`-inf`/`nan` together with a
`RuntimeWarning`; it does NOT raise `ZeroDivisionError`.  We model the
values as exact rationals extended with `nan`, `inf`, `-inf` (IEEE semantics
at rational precision; binary rounding of in-range finite arithmetic is
abstracted away, which is what the spec's "within floating-point tolerance"
allows).
-/

/-- A numeric value as held by the pandas revenue series and the derived
metrics: a finite number (modeled exactly as a rational), or one of the
IEEE-754 special values NaN, +inf, -inf. -/
inductive PValue where
  | num (q : ℚ)
  | nan
  | inf
  | ninf
deriving DecidableEq, Repr

/-- IEEE-754 subtraction on `PValue` (numpy scalar `-`): NaN propagates,
`inf - inf` is NaN, infinities absorb finite operands. -/
def psub : PValue → PValue → PValue
  | .nan, _ => .nan
  | _, .nan => .nan
  | .num a, .num b => .num (a - b)
  | .inf, .inf => .nan
  | .inf, _ => .inf
  | .ninf, .ninf => .nan
  | .ninf, _ => .ninf
  | .num _, .inf => .ninf
  | .num _, .ninf => .inf

/-- IEEE-754 division on `PValue` (numpy scalar `/`): NaN propagates; a
finite numerator over zero gives a signed infinity (`0/0` gives NaN) with a
`RuntimeWarning`, never a Python exception; a finite numerator over an
infinity gives zero. -/
def pdiv : PValue → PValue → PValue
  | .nan, _ => .nan
  | _, .nan => .nan
  | .num a, .num b =>
      if b = 0 then
        if a = 0 then .nan else if 0 < a then .inf else .ninf
      else .num (a / b)
  | .inf, .inf => .nan
  | .inf, .ninf => .nan
  | .inf, .num b => if b < 0 then .ninf else .inf
  | .ninf, .inf => .nan
  | .ninf, .ninf => .nan
  | .ninf, .num b => if b < 0 then .inf else .ninf
  | .num _, .inf => .num 0
  | .num _, .ninf => .num 0

/-- Multiplication by the literal `100` (the `* 100` of line 29): finite
values scale, special values are preserved. -/
def pmul100 : PValue → PValue
  | .num a => .num (a * 100)
  | .nan => .nan
  | .inf => .inf
  | .ninf => .ninf

/-- Line 29: `revenue_growth = ((latest_revenue - previous_revenue) /
previous_revenue) * 100`. -/
def growthOf (latest previous : PValue) : PValue :=
  pmul100 (pdiv (psub latest previous) previous)

/-! ## Python number formatting (`format` specs `,.0f` and `.2f`) -/

/-- Round a rational to the nearest integer, ties to even — the rounding
used by Python `format` on floats (at the model's rational precision). -/
def roundHalfEven (q : ℚ) : ℤ :=
  let f : ℤ := Rat.floor q
  if q - (f : ℚ) < 1 / 2 then f
  else if (1 : ℚ) / 2 < q - (f : ℚ) then f + 1
  else if f % 2 = 0 then f else f + 1

/-- Insert a `,` after every group of three digits, the digit list given
least-significant first. -/
def insertCommas : List Char → List Char
  | d1 :: d2 :: d3 :: d4 :: rest => d1 :: d2 :: d3 :: ',' :: insertCommas (d4 :: rest)
  | ds => ds

/-- Digits of a natural number with thousands separators. -/
def commaDigits (n : ℕ) : String :=
  String.mk (insertCommas (Nat.toDigits 10 n).reverse).reverse

/-- Python `format(x, ',.0f')` as used at lines 32-33: round to zero
decimals, group the integer digits with commas; `nan` prints `nan`, the
infinities print `inf`/`-inf`; a negative value rounding to zero prints
`-0` (the sign of the IEEE negative zero survives). -/
def fmtComma0 : PValue → String
  | .nan => "nan"
  | .inf => "inf"
  | .ninf => "-inf"
  | .num q =>
      let n := roundHalfEven q
      (if n < 0 ∨ (n = 0 ∧ q < 0) then "-" else "") ++ commaDigits n.natAbs

/-- Python `format(x, '.2f')` as used at line 34: two decimal digits, no
grouping; special values as in `fmtComma0`. -/
def fmtF2 : PValue → String
  | .nan => "nan"
  | .inf => "inf"
  | .ninf => "-inf"
  | .num q =>
      let n := roundHalfEven (q * 100)
      let a := n.natAbs
      (if n < 0 ∨ (n = 0 ∧ q < 0) then "-" else "")
        ++ toString (a / 100) ++ "."
        ++ (if a % 100 < 10 then "0" else "") ++ toString (a % 100)

/-- Python string slicing `s[:n]` (line 43: `text_from_pdf[:4000]`): the
first `n` characters (code points), or the whole string when it is
shorter; total for every string including the empty one. -/
def pySlice (s : String) (n : ℕ) : String :=
  ⟨s.data.take n⟩

/-! ## The spreadsheet model and its normalization (lines 78-87)

A cell of the already-parsed sheet is either a value `pd.to_numeric` can
coerce (modeled as a rational) or content that fails numeric coercion
(kept as its text).  A sheet is a grid of rows of cells; a workbook maps
sheet names to grids. -/

/-- A spreadsheet cell after reading: numeric, or non-numeric content. -/
inductive Cell where
  | num (q : ℚ)
  | str (s : String)
deriving DecidableEq, Repr

/-- The label a cell contributes when its column becomes the row index
(`index_col=0`).  Row labels the code compares against (`'3 Months
Ending'`, `'Net Revenue'`) are text cells; a numeric cell's label is its
decimal rendering. -/
def cellLabel : Cell → String
  | .str s => s
  | .num q => toString q

/-- `pd.to_numeric(_, errors='coerce')` on one cell: numeric content is
kept, anything that fails coercion becomes the missing-value marker NaN. -/
def coerceCell : Cell → PValue
  | .num q => .num q
  | .str _ => .nan

/-- Errors the pipeline can raise; caught only by the top-level
`except Exception` handler (lines 162-164). -/
inductive PyErr where
  | sheetNotFound
  | keyError
  | indexError
  | typeErr
deriving DecidableEq, Repr

/-- A workbook: named sheets, each a grid of cell rows. -/
abbrev Workbook := List (String × List (List Cell))

/-- A dataframe after `index_col=0`: rows of (index label, data cells). -/
structure DF where
  rows : List (String × List Cell)
deriving DecidableEq, Repr

/-- Lines 78-81: `pd.read_excel(excel_file, sheet_name=..., header=3,
index_col=0)`.  The named sheet is looked up (a missing sheet raises);
`header=3` makes row 3 the header so data rows start at row 4; column 0 of
each data row becomes its index label. -/
def read_excel (wb : Workbook) (sheet_name : String) : Except PyErr DF :=
  match wb.find? (fun s => s.1 == sheet_name) with
  | none => .error .sheetNotFound
  | some s =>
      .ok ⟨(s.2.drop 4).map (fun r => (cellLabel (r.headD (Cell.str "")), r.tail))⟩

/-- Line 83: `df.drop(df.columns[0], axis=1)` — remove the first data
column from every row (header names are positional in the model; column
names are assumed distinct, as in the source sheet). -/
def drop_first_column (df : DF) : DF :=
  ⟨df.rows.map (fun r => (r.1, r.2.tail))⟩

/-- Line 84: `df.drop('3 Months Ending')` — remove every row with that
index label; pandas raises `KeyError` when no row matches. -/
def drop_row (df : DF) (lbl : String) : Except PyErr DF :=
  if df.rows.any (fun r => r.1 == lbl) then
    .ok ⟨df.rows.filter (fun r => !(r.1 == lbl))⟩
  else .error .keyError

/-- Line 87, `df.loc['Net Revenue']`: select the row with the given label
(labels assumed unique, as in the source sheet); `KeyError` when absent. -/
def loc_row (df : DF) (lbl : String) : Except PyErr (List Cell) :=
  match df.rows.find? (fun r => r.1 == lbl) with
  | some r => .ok r.2
  | none => .error .keyError

/-- Lines 78-87 as one step: produce the coerced `revenue_data` series
from the uploaded workbook, propagating the first error raised. -/
def process_excel (wb : Workbook) : Except PyErr (List PValue) :=
  match read_excel wb "Income Statement" with
  | .error e => .error e
  | .ok df =>
      match drop_row (drop_first_column df) "3 Months Ending" with
      | .error e => .error e
      | .ok df2 =>
          match loc_row df2 "Net Revenue" with
          | .error e => .error e
          | .ok row => .ok (row.map coerceCell)

/-- Pandas positional indexing `series.iloc[i]` with Python negative-index
semantics: a negative `i` counts from the end; out of bounds raises
`IndexError`. -/
def iloc (xs : List PValue) (i : ℤ) : Except PyErr PValue :=
  let j : ℤ := if i < 0 then i + xs.length else i
  if 0 ≤ j then
    match xs.get? j.toNat with
    | some v => .ok v
    | none => .error .indexError
  else .error .indexError

/-! ## Chart, PDF text, the chat call, and the report (lines 92-160) -/

/-- The in-memory chart image (lines 92-102): identified by the series it
draws; `revenue_data.plot(kind='bar')` on an empty series raises (pandas:
no numeric data to plot), otherwise `plt.savefig` fills the buffer. -/
structure ChartImage where
  series : List PValue
deriving DecidableEq, Repr

/-- Lines 92-102: render the bar chart of the revenue series into an
in-memory buffer. -/
def render_chart (xs : List PValue) : Except PyErr ChartImage :=
  if xs.isEmpty then .error .typeErr else .ok ⟨xs⟩

/-- Lines 107-111: concatenate the extracted text of every PDF page with
no separator (the uploaded PDF is modeled as its per-page text). -/
def extract_text (pages : List String) : String :=
  pages.foldl (fun acc p => acc ++ p) ""

/-- One message of the chat-completion request. -/
structure ChatMessage where
  role : String
  content : String
deriving DecidableEq, Repr

/-- The chat-completion request of line 46: model identifier, sampling
temperature, message list. -/
structure ChatRequest where
  model : String
  temperature : ℚ
  messages : List ChatMessage
deriving DecidableEq, Repr

/-- One choice of the chat-completion response. -/
structure ChatChoice where
  message : ChatMessage
deriving DecidableEq, Repr

/-- The chat-completion response: its list of choices. -/
structure ChatResponse where
  choices : List ChatChoice
deriving DecidableEq, Repr

/-- The external service: a function from request to response (the network
call itself is outside the program). -/
abbrev Client := ChatRequest → ChatResponse

/-- Lines 30-44: the f-string prompt template, with the four interpolated
holes `{latest_revenue:,.0f}`, `{previous_revenue:,.0f}`,
`{revenue_growth:.2f}` and `{text_from_pdf[:4000]}` substituted. -/
def promptText (latest previous growth : PValue) (text_from_pdf : String) : String :=
  "\nYou are a professional financial analyst for SICOM.\nThe latest quarterly revenue is "
    ++ fmtComma0 latest
    ++ ".\nThe revenue for the same quarter last year was "
    ++ fmtComma0 previous
    ++ ".\nThis represents a "
    ++ fmtF2 growth
    ++ "% change.\n\nThe quarterly data also shows a significant negative revenue of -1,388.1M in Q3 2016.\nFlag this in your analysis as a \"Data Integrity Alert\" and advise that it appears to be a data-entry error in the source file.\n\nAnalyze the following text from the financial report and provide a brief summary\nof key performance indicators, risks, and outlook.\n\nText:\n"
    ++ pySlice text_from_pdf 4000
    ++ "\n"

/-- Lines 29-46: the request `generate_summary` sends — the prompt built
from the growth just computed (line 29), `model="gpt-4o"`,
`temperature=0.5`, one user message. -/
def chatRequest (text_from_pdf : String) (latest_revenue previous_revenue : PValue) :
    ChatRequest :=
  ⟨"gpt-4o", 1 / 2,
   [⟨"user",
     promptText latest_revenue previous_revenue
       (growthOf latest_revenue previous_revenue) text_from_pdf⟩]⟩

/-- Lines 27-48, `generate_summary`: compute the growth, build the prompt,
send the request, and return `response.choices[0].message.content` (an
empty choice list would make the `[0]` raise).  The request built is
returned alongside so the run record can expose what was sent. -/
def generate_summary (text_from_pdf : String) (latest_revenue previous_revenue : PValue)
    (client : Client) : ChatRequest × Except PyErr String :=
  match (client (chatRequest text_from_pdf latest_revenue previous_revenue)).choices with
  | [] => (chatRequest text_from_pdf latest_revenue previous_revenue, .error .indexError)
  | c :: _ => (chatRequest text_from_pdf latest_revenue previous_revenue, .ok c.message.content)

/-- The assembled output PDF (lines 121-147): the font family actually
set, the fixed title, the narrative body, the embedded chart image.
(Glyph-level encoding of the body under a core font is outside the model;
the spec treats the fallback as a degraded mode, not an error.) -/
structure Report where
  fontFamily : String
  title : String
  body : String
  image : ChartImage
deriving DecidableEq, Repr

/-- Lines 121-147: `try: pdf.add_font('DejaVu', ...)` — when the two font
files are absent the `FileNotFoundError` is caught, `st.error` shows the
fallback warning and `font_family` becomes `'Arial'`; then title, body and
image are placed.  Returns the report and whether the warning fired. -/
def assemble_report (fontsPresent : Bool) (summary : String) (chart : ChartImage) :
    Report × Bool :=
  let fa := if fontsPresent then ("DejaVu", false) else ("Arial", true)
  (⟨fa.1, "SICOM Financial Analysis", summary, chart⟩, fa.2)

/-- Line 157, `bytes(pdf.output())`: the serialized document byte stream;
every FPDF output begins with the `%PDF` header bytes, then carries the
document content. -/
def pdf_output (r : Report) : String :=
  "%PDF " ++ r.fontFamily ++ " " ++ r.title ++ " " ++ r.body

/-! ## The pipeline run (lines 68-164) -/

/-- The pipeline stages, in the order the source starts them. -/
inductive Step where
  | intake
  | normalizeS
  | renderChartS
  | extractTextS
  | deriveMetricsS
  | generateNarrativeS
  | assembleReportS
  | ready
deriving DecidableEq, Repr

/-- The observable outcome of one button press with both files present:
which stages started (in order), the final result, the chat request that
was sent (if the run got that far), the derived (latest, previous, growth)
metrics, whether the font-fallback warning fired, and the downloadable
bytes on success. -/
structure RunOutput where
  trace : List Step
  result : Except PyErr Report
  sentRequest : Option ChatRequest
  metrics : Option (PValue × PValue × PValue)
  fontWarning : Bool
  download : Option String

/-- The final result as an option on the error, for decidable statements. -/
def resultErr (r : RunOutput) : Option PyErr :=
  match r.result with
  | .error e => some e
  | .ok _ => none

/-- Whether the run produced a report. -/
def runOk (r : RunOutput) : Bool :=
  match r.result with
  | .ok _ => true
  | .error _ => false

/-- Lines 115-160 given the selected metrics: `generate_summary`, then
report assembly and the download offer. -/
def stage_narrative (chart : ChartImage) (text_content : String)
    (latest_rev previous_rev : PValue) (client : Client) (fontsPresent : Bool) : RunOutput :=
  match (generate_summary text_content latest_rev previous_rev client).2 with
  | .error e =>
      ⟨[.intake, .normalizeS, .renderChartS, .extractTextS, .deriveMetricsS,
        .generateNarrativeS],
       .error e,
       some (generate_summary text_content latest_rev previous_rev client).1,
       some (latest_rev, previous_rev, growthOf latest_rev previous_rev), false, none⟩
  | .ok summary =>
      ⟨[.intake, .normalizeS, .renderChartS, .extractTextS, .deriveMetricsS,
        .generateNarrativeS, .assembleReportS, .ready],
       .ok (assemble_report fontsPresent summary chart).1,
       some (generate_summary text_content latest_rev previous_rev client).1,
       some (latest_rev, previous_rev, growthOf latest_rev previous_rev),
       (assemble_report fontsPresent summary chart).2,
       some (pdf_output (assemble_report fontsPresent summary chart).1)⟩

/-- Lines 115-116: `latest_rev = revenue_data.iloc[-1]`, `previous_rev =
revenue_data.iloc[-5]`; an out-of-bounds read raises `IndexError` here,
after the chart and the text extraction already ran. -/
def stage_metrics (chart : ChartImage) (text_content : String)
    (revenue_data : List PValue) (client : Client) (fontsPresent : Bool) : RunOutput :=
  match iloc revenue_data (-1) with
  | .error e =>
      ⟨[.intake, .normalizeS, .renderChartS, .extractTextS, .deriveMetricsS],
       .error e, none, none, false, none⟩
  | .ok latest_rev =>
      match iloc revenue_data (-5) with
      | .error e =>
          ⟨[.intake, .normalizeS, .renderChartS, .extractTextS, .deriveMetricsS],
           .error e, none, none, false, none⟩
      | .ok previous_rev =>
          stage_narrative chart text_content latest_rev previous_rev client fontsPresent

/-- Lines 92-111: chart first (Checkpoint 6), then PDF text extraction
(Checkpoint 7), then the metric selection. -/
def stage_chart (revenue_data : List PValue) (pdf_pages : List String)
    (client : Client) (fontsPresent : Bool) : RunOutput :=
  match render_chart revenue_data with
  | .error e =>
      ⟨[.intake, .normalizeS, .renderChartS], .error e, none, none, false, none⟩
  | .ok chart =>
      stage_metrics chart (extract_text pdf_pages) revenue_data client fontsPresent

/-- The whole `try` block (lines 70-164) for one press with both files
present: spreadsheet normalization, then the later stages; any raised
error becomes the run's `.error` result via the catch-all handler. -/
def run_pipeline (wb : Workbook) (pdf_pages : List String)
    (client : Client) (fontsPresent : Bool) : RunOutput :=
  match process_excel wb with
  | .error e => ⟨[.intake, .normalizeS], .error e, none, none, false, none⟩
  | .ok revenue_data => stage_chart revenue_data pdf_pages client fontsPresent

/-- What the page shows after the button press. -/
inductive Display where
  | missingInput
  | errorShown (e : PyErr)
  | success
deriving DecidableEq, Repr

/-- The observable outcome of a button press, including the presence
check. -/
structure AppOutput where
  trace : List Step
  display : Display
  download : Option String

/-- Lines 63-167: the button handler.  Only when both uploads are present
does the pipeline start (`if excel_file is not None and pdf_file is not
None`); otherwise the sole effect is the missing-input error message. -/
def run_app (excel_file : Option Workbook) (pdf_file : Option (List String))
    (client : Client) (fontsPresent : Bool) : AppOutput :=
  match excel_file, pdf_file with
  | some wb, some pages =>
      let r := run_pipeline wb pages client fontsPresent
      match r.result with
      | .ok _ => ⟨r.trace, .success, r.download⟩
      | .error e => ⟨r.trace, .errorShown e, none⟩
  | _, _ => ⟨[], .missingInput, none⟩

/-! ## Helper lemmas about the embedded operations -/

/-- `iloc` with `-1` reads the last element. -/
lemma iloc_m1 (xs : List PValue) (v : PValue) (h1 : 1 ≤ xs.length)
    (hv : xs.get? (xs.length - 1) = some v) : iloc xs (-1) = .ok v := by
  have hneg : ((-1 : ℤ) < 0) := by norm_num
  have hnn : (0 : ℤ) ≤ (-1 : ℤ) + xs.length := by omega
  have hts : ((-1 : ℤ) + xs.length).toNat = xs.length - 1 := by omega
  simp only [iloc, if_pos hneg, if_pos hnn, hts, hv]

/-- `iloc` with `-5` reads the element four positions before the last,
when at least five exist. -/
lemma iloc_m5 (xs : List PValue) (v : PValue) (h5 : 5 ≤ xs.length)
    (hv : xs.get? (xs.length - 5) = some v) : iloc xs (-5) = .ok v := by
  have hneg : ((-5 : ℤ) < 0) := by norm_num
  have hnn : (0 : ℤ) ≤ (-5 : ℤ) + xs.length := by omega
  have hts : ((-5 : ℤ) + xs.length).toNat = xs.length - 5 := by omega
  simp only [iloc, if_pos hneg, if_pos hnn, hts, hv]

/-- `iloc` with `-5` raises `IndexError` on a series of fewer than five
entries. -/
lemma iloc_m5_oob (xs : List PValue) (h : xs.length < 5) :
    iloc xs (-5) = .error .indexError := by
  have hneg : ((-5 : ℤ) < 0) := by norm_num
  simp only [iloc, if_pos hneg]
  rcases Nat.lt_or_ge xs.length 5 with _ | h'
  · rw [if_neg (by omega)]
  · omega

/-- A nonempty series always yields a get at `length - 1`. -/
lemma get_last_exists (xs : List PValue) (h : 1 ≤ xs.length) :
    ∃ v, xs.get? (xs.length - 1) = some v :=
  ⟨xs.get ⟨xs.length - 1, by omega⟩, List.get?_eq_get (by omega)⟩

/-- A series of length ≥ 5 always yields a get at `length - 5`. -/
lemma get_m5_exists (xs : List PValue) (h : 5 ≤ xs.length) :
    ∃ v, xs.get? (xs.length - 5) = some v :=
  ⟨xs.get ⟨xs.length - 5, by omega⟩, List.get?_eq_get (by omega)⟩

/-- `render_chart` succeeds exactly on a nonempty series, yielding the
image of that series. -/
lemma render_chart_ok (xs : List PValue) (h : xs ≠ []) :
    render_chart xs = .ok ⟨xs⟩ := by
  unfold render_chart
  rw [if_neg (by simp [h])]

/-- Elimination: a successful `render_chart` drew the full series. -/
lemma render_chart_ok_elim (xs : List PValue) (c : ChartImage)
    (h : render_chart xs = .ok c) : c = ⟨xs⟩ := by
  unfold render_chart at h
  split at h
  · exact Except.noConfusion h
  · injection h with h'
    exact h'.symm

/-- The request `generate_summary` builds (its first component). -/
lemma gs_fst (text : String) (l p : PValue) (client : Client) :
    (generate_summary text l p client).1 = chatRequest text l p := by
  unfold generate_summary
  cases (client (chatRequest text l p)).choices <;> rfl

/-- `generate_summary` succeeds whenever the response has a first choice,
returning that choice's text. -/
lemma gs_snd_ok (text : String) (l p : PValue) (client : Client) (c : ChatChoice)
    (cs : List ChatChoice)
    (h : (client (chatRequest text l p)).choices = c :: cs) :
    (generate_summary text l p client).2 = .ok c.message.content := by
  unfold generate_summary
  rw [h]

/-! Stage-equation lemmas: each pipeline stage, rewritten under the
hypothesis that its scrutinee took a given branch. -/

lemma run_pipeline_norm_err (wb : Workbook) (pages : List String) (client : Client)
    (fonts : Bool) (e : PyErr) (hn : process_excel wb = .error e) :
    run_pipeline wb pages client fonts =
      ⟨[.intake, .normalizeS], .error e, none, none, false, none⟩ := by
  unfold run_pipeline
  rw [hn]

lemma run_pipeline_norm_ok (wb : Workbook) (pages : List String) (client : Client)
    (fonts : Bool) (xs : List PValue) (hn : process_excel wb = .ok xs) :
    run_pipeline wb pages client fonts = stage_chart xs pages client fonts := by
  unfold run_pipeline
  rw [hn]

lemma stage_chart_ok (xs : List PValue) (pages : List String) (client : Client)
    (fonts : Bool) (c : ChartImage) (h : render_chart xs = .ok c) :
    stage_chart xs pages client fonts =
      stage_metrics c (extract_text pages) xs client fonts := by
  unfold stage_chart
  rw [h]

lemma stage_chart_err (xs : List PValue) (pages : List String) (client : Client)
    (fonts : Bool) (e : PyErr) (h : render_chart xs = .error e) :
    stage_chart xs pages client fonts =
      ⟨[.intake, .normalizeS, .renderChartS], .error e, none, none, false, none⟩ := by
  unfold stage_chart
  rw [h]

lemma stage_metrics_ok (c : ChartImage) (text : String) (xs : List PValue)
    (client : Client) (fonts : Bool) (l p : PValue)
    (h1 : iloc xs (-1) = .ok l) (h5 : iloc xs (-5) = .ok p) :
    stage_metrics c text xs client fonts =
      stage_narrative c text l p client fonts := by
  unfold stage_metrics
  rw [h1, h5]

lemma stage_metrics_err5 (c : ChartImage) (text : String) (xs : List PValue)
    (client : Client) (fonts : Bool) (l : PValue) (e : PyErr)
    (h1 : iloc xs (-1) = .ok l) (h5 : iloc xs (-5) = .error e) :
    stage_metrics c text xs client fonts =
      ⟨[.intake, .normalizeS, .renderChartS, .extractTextS, .deriveMetricsS],
       .error e, none, none, false, none⟩ := by
  unfold stage_metrics
  rw [h1, h5]

lemma stage_narrative_ok (c : ChartImage) (text : String) (l p : PValue)
    (client : Client) (fonts : Bool) (summary : String)
    (h : (generate_summary text l p client).2 = .ok summary) :
    stage_narrative c text l p client fonts =
      ⟨[.intake, .normalizeS, .renderChartS, .extractTextS, .deriveMetricsS,
        .generateNarrativeS, .assembleReportS, .ready],
       .ok (assemble_report fonts summary c).1,
       some (generate_summary text l p client).1,
       some (l, p, growthOf l p),
       (assemble_report fonts summary c).2,
       some (pdf_output (assemble_report fonts summary c).1)⟩ := by
  unfold stage_narrative
  rw [h]

lemma stage_narrative_metrics (c : ChartImage) (text : String) (l p : PValue)
    (client : Client) (fonts : Bool) :
    (stage_narrative c text l p client fonts).metrics = some (l, p, growthOf l p) ∧
    (stage_narrative c text l p client fonts).sentRequest =
      some (generate_summary text l p client).1 := by
  unfold stage_narrative
  rcases hg : (generate_summary text l p client).2 with e | s <;> exact ⟨rfl, rfl⟩

/-- With a nonzero finite denominator, the growth computation of line 29
is exact rational arithmetic. -/
lemma growth_num (l p : ℚ) (hp : p ≠ 0) :
    growthOf (.num l) (.num p) = .num ((l - p) / p * 100) := by
  simp [growthOf, psub, pdiv, pmul100, hp]

/-- With a zero denominator the growth is one of the IEEE special values
(`inf`, `-inf`, or `nan`), never an exception. -/
lemma growth_zero (l : PValue) :
    growthOf l (.num 0) = .inf ∨ growthOf l (.num 0) = .ninf ∨
      growthOf l (.num 0) = .nan := by
  cases l with
  | num a =>
      rcases lt_trichotomy a 0 with h | h | h
      · right; left
        simp [growthOf, psub, pdiv, pmul100, h, not_lt.mpr (le_of_lt h), ne_of_lt h]
      · right; right
        simp [growthOf, psub, pdiv, pmul100, h]
      · left
        simp [growthOf, psub, pdiv, pmul100, h, ne_of_gt h]
  | nan => right; right; rfl
  | inf => left; simp [growthOf, psub, pdiv, pmul100]
  | ninf => right; left; simp [growthOf, psub, pdiv, pmul100]

/-- NaN in either operand makes the growth NaN (no exception anywhere). -/
lemma growth_nan (l p : PValue) (h : l = .nan ∨ p = .nan) :
    growthOf l p = .nan := by
  rcases h with h | h
  · subst h; cases p <;> rfl
  · subst h; cases l <;> rfl

/-- The serialized report is never the empty byte stream: it opens with
the `%PDF` header. -/
lemma pdf_output_ne_empty (r : Report) : pdf_output r ≠ "" := by
  intro h
  have hd := congrArg String.data h
  rw [pdf_output] at hd
  simp only [String.data_append] at hd
  simp at hd

/-- Elimination of a successful run: every scrutinee took its `ok`
branch, and the run output is the full success record. -/
lemma run_pipeline_ok_elim (wb : Workbook) (pages : List String) (client : Client)
    (fonts : Bool) (h : runOk (run_pipeline wb pages client fonts) = true) :
    ∃ xs latest previous summary,
      process_excel wb = .ok xs ∧
      iloc xs (-1) = .ok latest ∧
      iloc xs (-5) = .ok previous ∧
      (generate_summary (extract_text pages) latest previous client).2 = .ok summary ∧
      run_pipeline wb pages client fonts =
        ⟨[.intake, .normalizeS, .renderChartS, .extractTextS, .deriveMetricsS,
          .generateNarrativeS, .assembleReportS, .ready],
         .ok (assemble_report fonts summary ⟨xs⟩).1,
         some (generate_summary (extract_text pages) latest previous client).1,
         some (latest, previous, growthOf latest previous),
         (assemble_report fonts summary ⟨xs⟩).2,
         some (pdf_output (assemble_report fonts summary ⟨xs⟩).1)⟩ := by
  rcases hpe : process_excel wb with e | xs
  · rw [run_pipeline_norm_err wb pages client fonts e hpe] at h
    exact absurd h (by simp [runOk])
  · rw [run_pipeline_norm_ok wb pages client fonts xs hpe] at h
    rcases hrc : render_chart xs with e | chart
    · rw [stage_chart_err xs pages client fonts e hrc] at h
      exact absurd h (by simp [runOk])
    · obtain rfl : chart = ⟨xs⟩ := render_chart_ok_elim xs chart hrc
      rw [stage_chart_ok xs pages client fonts ⟨xs⟩ hrc] at h
      rcases h1 : iloc xs (-1) with e | latest
      · unfold stage_metrics at h
        rw [h1] at h
        exact absurd h (by simp [runOk])
      · rcases h5 : iloc xs (-5) with e | previous
        · rw [stage_metrics_err5 ⟨xs⟩ (extract_text pages) xs client fonts latest e h1 h5] at h
          exact absurd h (by simp [runOk])
        · rw [stage_metrics_ok ⟨xs⟩ (extract_text pages) xs client fonts latest previous h1 h5] at h
          rcases hgs : (generate_summary (extract_text pages) latest previous client).2
            with e | summary
          · unfold stage_narrative at h
            rw [hgs] at h
            exact absurd h (by simp [runOk])
          · refine ⟨xs, latest, previous, summary, rfl, h1, h5, hgs, ?_⟩
            rw [run_pipeline_norm_ok wb pages client fonts xs hpe,
              stage_chart_ok xs pages client fonts ⟨xs⟩ hrc,
              stage_metrics_ok ⟨xs⟩ (extract_text pages) xs client fonts latest previous h1 h5,
              stage_narrative_ok ⟨xs⟩ (extract_text pages) latest previous client fonts
                summary hgs]

/-! ## Concrete fixtures used by the closed counterexamples and witnesses -/

/-- A minimal workbook of the expected shape: an `Income Statement` sheet,
four header rows, a stray `3 Months Ending` sub-header row, and a
`Net Revenue` row whose first data cell (the dropped column) is junk and
whose remaining cells are the given revenue series. -/
def mkWB (vals : List Cell) : Workbook :=
  [("Income Statement",
    [[], [], [], [],
     [Cell.str "3 Months Ending", Cell.str "x"],
     [Cell.str "Net Revenue", Cell.str "x"] ++ vals])]

/-- A deterministic stand-in for the external service: one choice with a
fixed text. -/
def stubClient : Client := fun _ => ⟨[⟨⟨"assistant", "STUB SUMMARY"⟩⟩]⟩

/-! ## Step lemmas for the normalizer -/

/-- A list of length four is a four-element literal. -/
lemma length4 (l : List (List Cell)) (h : l.length = 4) :
    ∃ a b c d, l = [a, b, c, d] := by
  rcases l with _ | ⟨a, l⟩
  · simp at h
  rcases l with _ | ⟨b, l⟩
  · simp at h
  rcases l with _ | ⟨c, l⟩
  · simp at h
  rcases l with _ | ⟨d, l⟩
  · simp at h
  rcases l with _ | ⟨e, l⟩
  · exact ⟨a, b, c, d, rfl⟩
  · simp at h

lemma process_excel_read_err (wb : Workbook) (e : PyErr)
    (h : read_excel wb "Income Statement" = .error e) :
    process_excel wb = .error e := by
  unfold process_excel
  rw [h]

lemma process_excel_drop_err (wb : Workbook) (df : DF) (e : PyErr)
    (hr : read_excel wb "Income Statement" = .ok df)
    (hd : drop_row (drop_first_column df) "3 Months Ending" = .error e) :
    process_excel wb = .error e := by
  unfold process_excel
  rw [hr]
  dsimp only
  rw [hd]

lemma process_excel_loc_err (wb : Workbook) (df df2 : DF) (e : PyErr)
    (hr : read_excel wb "Income Statement" = .ok df)
    (hd : drop_row (drop_first_column df) "3 Months Ending" = .ok df2)
    (hl : loc_row df2 "Net Revenue" = .error e) :
    process_excel wb = .error e := by
  unfold process_excel
  rw [hr]
  dsimp only
  rw [hd]
  dsimp only
  rw [hl]

lemma drop_row_absent (df : DF) (lbl : String)
    (h : df.rows.any (fun r => r.1 == lbl) = false) :
    drop_row df lbl = .error .keyError := by
  simp [drop_row, h]

lemma drop_row_present (df : DF) (lbl : String)
    (h : df.rows.any (fun r => r.1 == lbl) = true) :
    drop_row df lbl = .ok ⟨df.rows.filter (fun r => !(r.1 == lbl))⟩ := by
  simp [drop_row, h]

lemma loc_row_absent (df : DF) (lbl : String)
    (h : df.rows.find? (fun r => r.1 == lbl) = none) :
    loc_row df lbl = .error .keyError := by
  simp [loc_row, h]

/-! ## Claim theorems -/

/-- C1: for every valid spreadsheet matching the expected shape whose
normalized Net Revenue series has at least 5 periods, with finite latest
value `l` (last element) and finite nonzero value `p` exactly 4 positions
before the last entry, the growth percentage the pipeline derives — and
embeds in the prompt sent to the external service — equals
`(l - p) / p * 100` (exact rational arithmetic; floating-point rounding is
abstracted, subsuming the claimed tolerance). -/
theorem C1_growth_formula (wb : Workbook) (pages : List String) (client : Client)
    (fonts : Bool) (xs : List PValue) (l p : ℚ)
    (hn : process_excel wb = .ok xs) (h5 : 5 ≤ xs.length)
    (hl : xs.get? (xs.length - 1) = some (.num l))
    (hp : xs.get? (xs.length - 5) = some (.num p)) (hp0 : p ≠ 0) :
    (run_pipeline wb pages client fonts).metrics =
      some (.num l, .num p, .num ((l - p) / p * 100)) ∧
    (run_pipeline wb pages client fonts).sentRequest =
      some ⟨"gpt-4o", 1 / 2,
        [⟨"user", promptText (.num l) (.num p) (.num ((l - p) / p * 100))
            (extract_text pages)⟩]⟩ := by
  have hne : xs ≠ [] := by
    intro h
    rw [h] at h5
    simp at h5
  have h1 := iloc_m1 xs _ (by omega) hl
  have h5' := iloc_m5 xs _ h5 hp
  rw [run_pipeline_norm_ok wb pages client fonts xs hn,
    stage_chart_ok xs pages client fonts ⟨xs⟩ (render_chart_ok xs hne),
    stage_metrics_ok ⟨xs⟩ (extract_text pages) xs client fonts _ _ h1 h5']
  have hm := stage_narrative_metrics ⟨xs⟩ (extract_text pages) (.num l) (.num p) client fonts
  rw [hm.1, hm.2, gs_fst]
  unfold chatRequest
  rw [growth_num l p hp0]
  exact ⟨rfl, rfl⟩

/-- Witness for C1 at a concrete five-period workbook: latest 5, previous
1, growth 400%. -/
theorem C1_growth_formula_witness :
    process_excel (mkWB [Cell.num 1, Cell.num 2, Cell.num 3, Cell.num 4, Cell.num 5]) =
      .ok [.num 1, .num 2, .num 3, .num 4, .num 5] ∧
    (1 : ℚ) ≠ 0 ∧
    (run_pipeline (mkWB [Cell.num 1, Cell.num 2, Cell.num 3, Cell.num 4, Cell.num 5])
        ["pg"] stubClient true).metrics =
      some (.num 5, .num 1, .num ((5 - 1) / 1 * 100)) :=
  ⟨rfl, by norm_num,
   (C1_growth_formula (mkWB [Cell.num 1, Cell.num 2, Cell.num 3, Cell.num 4, Cell.num 5])
     ["pg"] stubClient true [.num 1, .num 2, .num 3, .num 4, .num 5] 5 1
     rfl (by norm_num) rfl rfl (by norm_num)).1⟩

/-- C2 counterexample: on a spreadsheet whose value exactly 4 positions
before the last entry is zero, the run does NOT fail with a division
error — numpy-scalar division by zero yields `+inf`, the run succeeds and
a report is produced and offered for download, contradicting the claim. -/
theorem C2_counterexample :
    runOk (run_pipeline (mkWB [Cell.num 0, Cell.num 2, Cell.num 3, Cell.num 4, Cell.num 5])
        ["pg"] stubClient true) = true ∧
    (run_pipeline (mkWB [Cell.num 0, Cell.num 2, Cell.num 3, Cell.num 4, Cell.num 5])
        ["pg"] stubClient true).metrics = some (.num 5, .num 0, .inf) ∧
    (run_pipeline (mkWB [Cell.num 0, Cell.num 2, Cell.num 3, Cell.num 4, Cell.num 5])
        ["pg"] stubClient true).download.isSome = true := by
  have hn : process_excel (mkWB [Cell.num 0, Cell.num 2, Cell.num 3, Cell.num 4, Cell.num 5]) =
      .ok [.num 0, .num 2, .num 3, .num 4, .num 5] := rfl
  have hg : growthOf (.num 5) (.num 0) = .inf := by
    norm_num [growthOf, psub, pdiv, pmul100]
  have hch : (stubClient (chatRequest (extract_text ["pg"]) (.num 5) (.num 0))).choices =
      ChatChoice.mk ⟨"assistant", "STUB SUMMARY"⟩ :: [] := rfl
  have hgs := gs_snd_ok (extract_text ["pg"]) (.num 5) (.num 0) stubClient _ [] hch
  rw [run_pipeline_norm_ok _ _ _ _ _ hn,
    stage_chart_ok _ _ _ _ ⟨[.num 0, .num 2, .num 3, .num 4, .num 5]⟩
      (render_chart_ok _ (by simp)),
    stage_metrics_ok _ _ _ _ _ (.num 5) (.num 0)
      (iloc_m1 [.num 0, .num 2, .num 3, .num 4, .num 5] (.num 5) (by norm_num) rfl)
      (iloc_m5 [.num 0, .num 2, .num 3, .num 4, .num 5] (.num 0) (by norm_num) rfl),
    stage_narrative_ok _ _ _ _ _ _ _ hgs]
  refine ⟨rfl, ?_, rfl⟩
  rw [hg]

/-- C2 (amended): with a zero value 4 positions before the last entry, no
division error is raised — the growth evaluates to an IEEE special value
(`inf`, `-inf` or `nan`) that flows into the prompt, and (when the
external call returns a choice) the run still succeeds and offers a
report for download. -/
theorem C2_zero_prev_no_error (wb : Workbook) (pages : List String) (client : Client)
    (fonts : Bool) (xs : List PValue) (latest : PValue)
    (hn : process_excel wb = .ok xs) (h5 : 5 ≤ xs.length)
    (hl : xs.get? (xs.length - 1) = some latest)
    (hp : xs.get? (xs.length - 5) = some (.num 0))
    (hc : ∀ req : ChatRequest, (client req).choices ≠ []) :
    runOk (run_pipeline wb pages client fonts) = true ∧
    (run_pipeline wb pages client fonts).metrics =
      some (latest, .num 0, growthOf latest (.num 0)) ∧
    (growthOf latest (.num 0) = .inf ∨ growthOf latest (.num 0) = .ninf ∨
      growthOf latest (.num 0) = .nan) ∧
    (run_pipeline wb pages client fonts).download.isSome = true := by
  have hne : xs ≠ [] := by
    intro h
    rw [h] at h5
    simp at h5
  have h1 := iloc_m1 xs latest (by omega) hl
  have h5' := iloc_m5 xs (.num 0) h5 hp
  obtain ⟨c, cs, hch⟩ :
      ∃ c cs, (client (chatRequest (extract_text pages) latest (.num 0))).choices = c :: cs := by
    rcases hx : (client (chatRequest (extract_text pages) latest (.num 0))).choices
      with _ | ⟨c, cs⟩
    · exact absurd hx (hc _)
    · exact ⟨c, cs, rfl⟩
  have hgs := gs_snd_ok (extract_text pages) latest (.num 0) client c cs hch
  rw [run_pipeline_norm_ok wb pages client fonts xs hn,
    stage_chart_ok xs pages client fonts ⟨xs⟩ (render_chart_ok xs hne),
    stage_metrics_ok ⟨xs⟩ (extract_text pages) xs client fonts latest (.num 0) h1 h5',
    stage_narrative_ok ⟨xs⟩ (extract_text pages) latest (.num 0) client fonts _ hgs]
  exact ⟨rfl, rfl, growth_zero latest, rfl⟩

/-- Witness for the amended C2 at a concrete workbook with a zero
4-periods-back value. -/
theorem C2_zero_prev_no_error_witness :
    process_excel (mkWB [Cell.num 0, Cell.num 2, Cell.num 3, Cell.num 4, Cell.num 6]) =
      .ok [.num 0, .num 2, .num 3, .num 4, .num 6] ∧
    runOk (run_pipeline (mkWB [Cell.num 0, Cell.num 2, Cell.num 3, Cell.num 4, Cell.num 6])
        ["pg"] stubClient true) = true :=
  ⟨rfl,
   (C2_zero_prev_no_error (mkWB [Cell.num 0, Cell.num 2, Cell.num 3, Cell.num 4, Cell.num 6])
     ["pg"] stubClient true [.num 0, .num 2, .num 3, .num 4, .num 6] (.num 6)
     rfl (by norm_num) rfl rfl (fun req => by simp [stubClient])).1⟩

/-- C3 counterexample: on a two-period spreadsheet the run does fail with
an `IndexError`, but chart rendering HAS been invoked by then (it is in
the executed trace), contradicting the claim that the failure occurs
before chart rendering is reached. -/
theorem C3_counterexample :
    resultErr (run_pipeline (mkWB [Cell.num 1, Cell.num 2]) ["pg"] stubClient true) =
      some .indexError ∧
    Step.renderChartS ∈
      (run_pipeline (mkWB [Cell.num 1, Cell.num 2]) ["pg"] stubClient true).trace := by
  decide

/-- C3 (amended): on a spreadsheet whose revenue series has at least one
and fewer than 5 periods, the pipeline fails with an index error, but
only AFTER chart rendering and text extraction have run — the failing
`iloc[-5]` sits at line 116, below the chart block (lines 92-102). -/
theorem C3_few_periods_error_after_chart (wb : Workbook) (pages : List String)
    (client : Client) (fonts : Bool) (xs : List PValue)
    (hn : process_excel wb = .ok xs) (h1 : 1 ≤ xs.length) (h5 : xs.length < 5) :
    resultErr (run_pipeline wb pages client fonts) = some .indexError ∧
    (run_pipeline wb pages client fonts).trace =
      [.intake, .normalizeS, .renderChartS, .extractTextS, .deriveMetricsS] := by
  have hne : xs ≠ [] := by
    intro h
    rw [h] at h1
    simp at h1
  obtain ⟨v, hv⟩ := get_last_exists xs h1
  have hil := iloc_m1 xs v h1 hv
  rw [run_pipeline_norm_ok wb pages client fonts xs hn,
    stage_chart_ok xs pages client fonts ⟨xs⟩ (render_chart_ok xs hne),
    stage_metrics_err5 ⟨xs⟩ (extract_text pages) xs client fonts v .indexError hil
      (iloc_m5_oob xs h5)]
  exact ⟨rfl, rfl⟩

/-- Witness for the amended C3 at a concrete three-period workbook. -/
theorem C3_few_periods_witness :
    process_excel (mkWB [Cell.num 1, Cell.num 2, Cell.num 3]) =
      .ok [.num 1, .num 2, .num 3] ∧
    resultErr (run_pipeline (mkWB [Cell.num 1, Cell.num 2, Cell.num 3]) ["pg"] stubClient true) =
      some .indexError :=
  ⟨rfl,
   (C3_few_periods_error_after_chart (mkWB [Cell.num 1, Cell.num 2, Cell.num 3])
     ["pg"] stubClient true [.num 1, .num 2, .num 3] rfl (by norm_num) (by norm_num)).1⟩

/-- C4 counterexample: a concrete successful run's executed order is
Intake, Normalize, RenderChart, ExtractText, DeriveMetrics,
GenerateNarrative, AssembleReport, Ready — which differs from the claimed
order (DeriveMetrics before RenderChart): in the source the chart block
(lines 92-102) precedes the `iloc` metric selection (lines 115-116). -/
theorem C4_counterexample :
    (run_pipeline
        (mkWB [Cell.num 1, Cell.num 2, Cell.num 3, Cell.num 4, Cell.num 5, Cell.num 6])
        ["pg"] stubClient true).trace =
      [.intake, .normalizeS, .renderChartS, .extractTextS, .deriveMetricsS,
       .generateNarrativeS, .assembleReportS, .ready] ∧
    ([.intake, .normalizeS, .renderChartS, .extractTextS, .deriveMetricsS,
      .generateNarrativeS, .assembleReportS, .ready] : List Step) ≠
      [.intake, .normalizeS, .deriveMetricsS, .renderChartS, .extractTextS,
       .generateNarrativeS, .assembleReportS, .ready] := by
  constructor
  · have hn : process_excel
        (mkWB [Cell.num 1, Cell.num 2, Cell.num 3, Cell.num 4, Cell.num 5, Cell.num 6]) =
        .ok [.num 1, .num 2, .num 3, .num 4, .num 5, .num 6] := rfl
    have hch : (stubClient (chatRequest (extract_text ["pg"]) (.num 6) (.num 2))).choices =
        ChatChoice.mk ⟨"assistant", "STUB SUMMARY"⟩ :: [] := rfl
    have hgs := gs_snd_ok (extract_text ["pg"]) (.num 6) (.num 2) stubClient _ [] hch
    rw [run_pipeline_norm_ok _ _ _ _ _ hn,
      stage_chart_ok _ _ _ _ ⟨[.num 1, .num 2, .num 3, .num 4, .num 5, .num 6]⟩
        (render_chart_ok _ (by simp)),
      stage_metrics_ok _ _ _ _ _ (.num 6) (.num 2)
        (iloc_m1 [.num 1, .num 2, .num 3, .num 4, .num 5, .num 6] (.num 6) (by norm_num) rfl)
        (iloc_m5 [.num 1, .num 2, .num 3, .num 4, .num 5, .num 6] (.num 2) (by norm_num) rfl),
      stage_narrative_ok _ _ _ _ _ _ _ hgs]
  · decide

/-- C4 (amended): on every successful run the stages execute in the order
Intake, Normalize, RenderChart, ExtractText, DeriveMetrics,
GenerateNarrative, AssembleReport, Ready — chart rendering precedes both
PDF text extraction and metric derivation. -/
theorem C4_pipeline_order (wb : Workbook) (pages : List String) (client : Client)
    (fonts : Bool) (h : runOk (run_pipeline wb pages client fonts) = true) :
    (run_pipeline wb pages client fonts).trace =
      [.intake, .normalizeS, .renderChartS, .extractTextS, .deriveMetricsS,
       .generateNarrativeS, .assembleReportS, .ready] := by
  obtain ⟨xs, l, p, s, -, -, -, -, heq⟩ := run_pipeline_ok_elim wb pages client fonts h
  rw [heq]

/-- Witness for the amended C4 at a concrete successful run. -/
theorem C4_pipeline_order_witness :
    runOk (run_pipeline
        (mkWB [Cell.num 1, Cell.num 1, Cell.num 1, Cell.num 1, Cell.num 1, Cell.num 1,
          Cell.num 2]) ["pg"] stubClient true) = true ∧
    (run_pipeline
        (mkWB [Cell.num 1, Cell.num 1, Cell.num 1, Cell.num 1, Cell.num 1, Cell.num 1,
          Cell.num 2]) ["pg"] stubClient true).trace =
      [.intake, .normalizeS, .renderChartS, .extractTextS, .deriveMetricsS,
       .generateNarrativeS, .assembleReportS, .ready] := by
  have hn : process_excel
      (mkWB [Cell.num 1, Cell.num 1, Cell.num 1, Cell.num 1, Cell.num 1, Cell.num 1,
        Cell.num 2]) =
      .ok [.num 1, .num 1, .num 1, .num 1, .num 1, .num 1, .num 2] := rfl
  have hch : (stubClient (chatRequest (extract_text ["pg"]) (.num 2) (.num 1))).choices =
      ChatChoice.mk ⟨"assistant", "STUB SUMMARY"⟩ :: [] := rfl
  have hgs := gs_snd_ok (extract_text ["pg"]) (.num 2) (.num 1) stubClient _ [] hch
  have hrun : runOk (run_pipeline
      (mkWB [Cell.num 1, Cell.num 1, Cell.num 1, Cell.num 1, Cell.num 1, Cell.num 1,
        Cell.num 2]) ["pg"] stubClient true) = true := by
    rw [run_pipeline_norm_ok _ _ _ _ _ hn,
      stage_chart_ok _ _ _ _ ⟨[.num 1, .num 1, .num 1, .num 1, .num 1, .num 1, .num 2]⟩
        (render_chart_ok _ (by simp)),
      stage_metrics_ok _ _ _ _ _ (.num 2) (.num 1)
        (iloc_m1 [.num 1, .num 1, .num 1, .num 1, .num 1, .num 1, .num 2] (.num 2)
          (by norm_num) rfl)
        (iloc_m5 [.num 1, .num 1, .num 1, .num 1, .num 1, .num 1, .num 2] (.num 1)
          (by norm_num) rfl),
      stage_narrative_ok _ _ _ _ _ _ _ hgs]
    rfl
  exact ⟨hrun, C4_pipeline_order _ _ _ _ hrun⟩

/-- C5: when one or both uploads are absent, the button handler runs no
pipeline stage at all — the executed trace is empty, the only observable
effect is the missing-input error message, and nothing is offered for
download. -/
theorem C5_missing_input (excel_file : Option Workbook) (pdf_file : Option (List String))
    (client : Client) (fonts : Bool) (h : excel_file = none ∨ pdf_file = none) :
    run_app excel_file pdf_file client fonts = ⟨[], .missingInput, none⟩ := by
  rcases h with h | h
  · subst h
    cases pdf_file <;> rfl
  · subst h
    cases excel_file <;> rfl

/-- Witness for C5 with the spreadsheet absent and the PDF present. -/
theorem C5_missing_input_witness :
    ((none : Option Workbook) = none ∨ (some ["pg"] : Option (List String)) = none) ∧
    run_app none (some ["pg"]) stubClient true = ⟨[], .missingInput, none⟩ :=
  ⟨Or.inl rfl, C5_missing_input none (some ["pg"]) stubClient true (Or.inl rfl)⟩

/-- C6: every call of the narrative generator sends the single fixed
template — latest revenue formatted with thousands separators, previous
revenue likewise, the computed growth percentage, the hard-coded Data
Integrity Alert instruction, and exactly the first 4000 characters of the
extracted text — with the fixed model `gpt-4o` and fixed temperature 0.5,
and returns the first choice's message text. -/
theorem C6_fixed_prompt_and_request (text_from_pdf : String) (latest previous : PValue)
    (client : Client) :
    (generate_summary text_from_pdf latest previous client).1.model = "gpt-4o" ∧
    (generate_summary text_from_pdf latest previous client).1.temperature = 1 / 2 ∧
    (generate_summary text_from_pdf latest previous client).1.messages =
      [⟨"user",
        "\nYou are a professional financial analyst for SICOM.\nThe latest quarterly revenue is "
          ++ fmtComma0 latest
          ++ ".\nThe revenue for the same quarter last year was "
          ++ fmtComma0 previous
          ++ ".\nThis represents a "
          ++ fmtF2 (growthOf latest previous)
          ++ "% change.\n\nThe quarterly data also shows a significant negative revenue of -1,388.1M in Q3 2016.\nFlag this in your analysis as a \"Data Integrity Alert\" and advise that it appears to be a data-entry error in the source file.\n\nAnalyze the following text from the financial report and provide a brief summary\nof key performance indicators, risks, and outlook.\n\nText:\n"
          ++ pySlice text_from_pdf 4000
          ++ "\n"⟩] ∧
    ∀ c cs,
      (client (generate_summary text_from_pdf latest previous client).1).choices = c :: cs →
      (generate_summary text_from_pdf latest previous client).2 = .ok c.message.content := by
  refine ⟨by rw [gs_fst]; rfl, by rw [gs_fst]; rfl, by rw [gs_fst]; rfl, ?_⟩
  intro c cs h
  rw [gs_fst] at h
  exact gs_snd_ok _ _ _ client c cs h

/-- Witness for C6 at a concrete call through the stub client. -/
theorem C6_fixed_prompt_and_request_witness :
    (stubClient (generate_summary "DOC" (.num 5) (.num 4) stubClient).1).choices =
      ChatChoice.mk ⟨"assistant", "STUB SUMMARY"⟩ :: [] ∧
    (generate_summary "DOC" (.num 5) (.num 4) stubClient).2 = .ok "STUB SUMMARY" :=
  ⟨rfl,
   (C6_fixed_prompt_and_request "DOC" (.num 5) (.num 4) stubClient).2.2.2
     (ChatChoice.mk ⟨"assistant", "STUB SUMMARY"⟩) [] rfl⟩

/-- C7: the spreadsheet normalizer (a) raises when the `Income Statement`
sheet is absent; (b) on the expected shape — 4 header rows, a
`3 Months Ending` sub-header row, a `Net Revenue` row — drops the first
data column and the sub-header row and returns the Net Revenue cells each
coerced to a number, non-coercible cells becoming the missing-value
marker NaN; (c) raises when no row is labeled `3 Months Ending`;
(d) raises when no row is labeled `Net Revenue`; no fallback search is
performed in any error case. -/
theorem C7_normalizer_contract :
    (∀ wb : Workbook, (∀ p ∈ wb, p.1 ≠ "Income Statement") →
        process_excel wb = .error .sheetNotFound) ∧
    (∀ (hdr : List (List Cell)) (j1 : List Cell) (j2 : Cell) (vals : List Cell),
        hdr.length = 4 →
        process_excel [("Income Statement",
            hdr ++ [[Cell.str "3 Months Ending"] ++ j1,
                    [Cell.str "Net Revenue", j2] ++ vals])] =
          .ok (vals.map coerceCell)) ∧
    (∀ (hdr rows : List (List Cell)),
        hdr.length = 4 →
        (∀ r ∈ rows, cellLabel (r.headD (Cell.str "")) ≠ "3 Months Ending") →
        process_excel [("Income Statement", hdr ++ rows)] = .error .keyError) ∧
    (∀ (hdr rows : List (List Cell)),
        hdr.length = 4 →
        (∃ r ∈ rows, cellLabel (r.headD (Cell.str "")) = "3 Months Ending") →
        (∀ r ∈ rows, cellLabel (r.headD (Cell.str "")) ≠ "Net Revenue") →
        process_excel [("Income Statement", hdr ++ rows)] = .error .keyError) ∧
    (∀ q : ℚ, coerceCell (.num q) = .num q) ∧
    (∀ s : String, coerceCell (.str s) = .nan) := by
  refine ⟨?_, ?_, ?_, ?_, fun q => rfl, fun s => rfl⟩
  · intro wb h
    have hf : wb.find? (fun s => s.1 == "Income Statement") = none := by
      rw [List.find?_eq_none]
      intro x hx
      simpa using h x hx
    refine process_excel_read_err wb .sheetNotFound ?_
    unfold read_excel
    rw [hf]
  · intro hdr j1 j2 vals hlen
    obtain ⟨a, b, c, d, rfl⟩ := length4 hdr hlen
    rfl
  · intro hdr rows hlen h3
    obtain ⟨a, b, c, d, rfl⟩ := length4 hdr hlen
    have hread : read_excel [("Income Statement", [a, b, c, d] ++ rows)] "Income Statement" =
        .ok ⟨rows.map (fun r => (cellLabel (r.headD (Cell.str "")), r.tail))⟩ := rfl
    have hany : (drop_first_column
          ⟨rows.map (fun r => (cellLabel (r.headD (Cell.str "")), r.tail))⟩).rows.any
          (fun r => r.1 == "3 Months Ending") = false := by
      rw [List.any_eq_false]
      intro x hx
      simp only [drop_first_column, List.mem_map] at hx
      obtain ⟨y, ⟨r, hr, rfl⟩, rfl⟩ := hx
      simpa using h3 r hr
    exact process_excel_drop_err _ _ _ hread (drop_row_absent _ _ hany)
  · intro hdr rows hlen h3 h4
    obtain ⟨a, b, c, d, rfl⟩ := length4 hdr hlen
    have hread : read_excel [("Income Statement", [a, b, c, d] ++ rows)] "Income Statement" =
        .ok ⟨rows.map (fun r => (cellLabel (r.headD (Cell.str "")), r.tail))⟩ := rfl
    have hany : (drop_first_column
          ⟨rows.map (fun r => (cellLabel (r.headD (Cell.str "")), r.tail))⟩).rows.any
          (fun r => r.1 == "3 Months Ending") = true := by
      rw [List.any_eq_true]
      obtain ⟨r, hr, hlbl⟩ := h3
      refine ⟨(cellLabel (r.headD (Cell.str "")), r.tail.tail), ?_, ?_⟩
      · simp only [drop_first_column, List.mem_map]
        exact ⟨(cellLabel (r.headD (Cell.str "")), r.tail), ⟨r, hr, rfl⟩, rfl⟩
      · simpa using hlbl
    have hfind : ((⟨(drop_first_column
          ⟨rows.map (fun r => (cellLabel (r.headD (Cell.str "")), r.tail))⟩).rows.filter
          (fun r => !(r.1 == "3 Months Ending"))⟩ : DF)).rows.find?
          (fun r => r.1 == "Net Revenue") = none := by
      rw [List.find?_eq_none]
      intro x hx
      rw [List.mem_filter] at hx
      obtain ⟨hx1, -⟩ := hx
      simp only [drop_first_column, List.mem_map] at hx1
      obtain ⟨y, ⟨r, hr, rfl⟩, rfl⟩ := hx1
      simpa using h4 r hr
    exact process_excel_loc_err _ _ _ _ hread (drop_row_present _ _ hany)
      (loc_row_absent _ _ hfind)

/-- Witness for C7: the success shape at a concrete sheet with one
coercible and one non-coercible Net Revenue cell. -/
theorem C7_normalizer_contract_witness :
    ([[], [], [], []] : List (List Cell)).length = 4 ∧
    process_excel [("Income Statement",
        [[], [], [], []] ++ [[Cell.str "3 Months Ending"] ++ [Cell.str "x"],
          [Cell.str "Net Revenue", Cell.str "x"] ++ [Cell.num 7, Cell.str "n.a."]])] =
      .ok ([Cell.num 7, Cell.str "n.a."].map coerceCell) :=
  ⟨rfl, C7_normalizer_contract.2.1 [[], [], [], []] [Cell.str "x"] (Cell.str "x")
    [Cell.num 7, Cell.str "n.a."] rfl⟩

/-- C8: when the font files are absent, the report assembly does not
fail — the `FileNotFoundError` is caught, the built-in `Arial` family is
substituted, the visible warning fires, and a successful run still
produces a non-empty serialized report offered for download. -/
theorem C8_font_fallback (wb : Workbook) (pages : List String) (client : Client)
    (h : runOk (run_pipeline wb pages client false) = true) :
    (run_pipeline wb pages client false).fontWarning = true ∧
    ∃ r : Report, (run_pipeline wb pages client false).result = .ok r ∧
      r.fontFamily = "Arial" ∧
      (run_pipeline wb pages client false).download = some (pdf_output r) ∧
      pdf_output r ≠ "" := by
  obtain ⟨xs, l, p, s, -, -, -, -, heq⟩ := run_pipeline_ok_elim wb pages client false h
  rw [heq]
  exact ⟨rfl, (assemble_report false s ⟨xs⟩).1, rfl, rfl, rfl, pdf_output_ne_empty _⟩

/-- Witness for C8 at a concrete run with fonts absent. -/
theorem C8_font_fallback_witness :
    runOk (run_pipeline (mkWB [Cell.num 3, Cell.num 3, Cell.num 3, Cell.num 3, Cell.num 3])
        ["pg"] stubClient false) = true ∧
    ((run_pipeline (mkWB [Cell.num 3, Cell.num 3, Cell.num 3, Cell.num 3, Cell.num 3])
        ["pg"] stubClient false).fontWarning = true ∧
     ∃ r : Report,
       (run_pipeline (mkWB [Cell.num 3, Cell.num 3, Cell.num 3, Cell.num 3, Cell.num 3])
           ["pg"] stubClient false).result = .ok r ∧
       r.fontFamily = "Arial" ∧
       (run_pipeline (mkWB [Cell.num 3, Cell.num 3, Cell.num 3, Cell.num 3, Cell.num 3])
           ["pg"] stubClient false).download = some (pdf_output r) ∧
       pdf_output r ≠ "") := by
  have hn : process_excel (mkWB [Cell.num 3, Cell.num 3, Cell.num 3, Cell.num 3, Cell.num 3]) =
      .ok [.num 3, .num 3, .num 3, .num 3, .num 3] := rfl
  have hch : (stubClient (chatRequest (extract_text ["pg"]) (.num 3) (.num 3))).choices =
      ChatChoice.mk ⟨"assistant", "STUB SUMMARY"⟩ :: [] := rfl
  have hgs := gs_snd_ok (extract_text ["pg"]) (.num 3) (.num 3) stubClient _ [] hch
  have hrun : runOk (run_pipeline
      (mkWB [Cell.num 3, Cell.num 3, Cell.num 3, Cell.num 3, Cell.num 3])
      ["pg"] stubClient false) = true := by
    rw [run_pipeline_norm_ok _ _ _ _ _ hn,
      stage_chart_ok _ _ _ _ ⟨[.num 3, .num 3, .num 3, .num 3, .num 3]⟩
        (render_chart_ok _ (by simp)),
      stage_metrics_ok _ _ _ _ _ (.num 3) (.num 3)
        (iloc_m1 [.num 3, .num 3, .num 3, .num 3, .num 3] (.num 3) (by norm_num) rfl)
        (iloc_m5 [.num 3, .num 3, .num 3, .num 3, .num 3] (.num 3) (by norm_num) rfl),
      stage_narrative_ok _ _ _ _ _ _ _ hgs]
    rfl
  exact ⟨hrun, C8_font_fallback _ _ _ hrun⟩

/-- C9 (implicit): if the latest cell or the cell 4 positions before the
last failed numeric coercion (so reads as NaN), metric derivation and
prompt construction raise no error — the growth is NaN, the request is
still built and sent, and NaN is formatted into the prompt text as
`nan`. -/
theorem C9_nan_propagates (wb : Workbook) (pages : List String) (client : Client)
    (fonts : Bool) (xs : List PValue) (latest previous : PValue)
    (hn : process_excel wb = .ok xs) (h5 : 5 ≤ xs.length)
    (hl : xs.get? (xs.length - 1) = some latest)
    (hp : xs.get? (xs.length - 5) = some previous)
    (hnan : latest = .nan ∨ previous = .nan) :
    (run_pipeline wb pages client fonts).metrics = some (latest, previous, .nan) ∧
    (run_pipeline wb pages client fonts).sentRequest =
      some ⟨"gpt-4o", 1 / 2,
        [⟨"user", promptText latest previous .nan (extract_text pages)⟩]⟩ ∧
    fmtF2 PValue.nan = "nan" ∧ fmtComma0 PValue.nan = "nan" := by
  have hne : xs ≠ [] := by
    intro h
    rw [h] at h5
    simp at h5
  have h1 := iloc_m1 xs latest (by omega) hl
  have h5' := iloc_m5 xs previous h5 hp
  rw [run_pipeline_norm_ok wb pages client fonts xs hn,
    stage_chart_ok xs pages client fonts ⟨xs⟩ (render_chart_ok xs hne),
    stage_metrics_ok ⟨xs⟩ (extract_text pages) xs client fonts latest previous h1 h5']
  have hm := stage_narrative_metrics ⟨xs⟩ (extract_text pages) latest previous client fonts
  rw [hm.1, hm.2, gs_fst]
  unfold chatRequest
  rw [growth_nan latest previous hnan]
  exact ⟨rfl, rfl, rfl, rfl⟩

/-- Witness for C9 at a workbook whose 4-back cell is non-numeric. -/
theorem C9_nan_propagates_witness :
    process_excel (mkWB [Cell.str "NA", Cell.num 2, Cell.num 3, Cell.num 4, Cell.num 5]) =
      .ok [.nan, .num 2, .num 3, .num 4, .num 5] ∧
    (run_pipeline (mkWB [Cell.str "NA", Cell.num 2, Cell.num 3, Cell.num 4, Cell.num 5])
        ["pg"] stubClient true).metrics = some (.num 5, .nan, .nan) :=
  ⟨rfl,
   (C9_nan_propagates (mkWB [Cell.str "NA", Cell.num 2, Cell.num 3, Cell.num 4, Cell.num 5])
     ["pg"] stubClient true [.nan, .num 2, .num 3, .num 4, .num 5] (.num 5) .nan
     rfl (by norm_num) rfl rfl (Or.inr rfl)).1⟩

/-- C10 (implicit): the 4000-character truncation is total — for every
extracted string the slice succeeds, is a prefix of the original, has
length `min 4000 (length)`, and equals the whole string when that is no
longer than 4000 characters. -/
theorem C10_truncation_total (s : String) :
    (pySlice s 4000).data <+: s.data ∧
    (pySlice s 4000).length = min 4000 s.length ∧
    (s.length ≤ 4000 → pySlice s 4000 = s) := by
  refine ⟨List.take_prefix 4000 s.data, ?_, ?_⟩
  · show (s.data.take 4000).length = min 4000 s.length
    rw [List.length_take]
    rfl
  · intro h
    show (⟨s.data.take 4000⟩ : String) = s
    rw [List.take_of_length_le h]

/-- Witness for C10 at a short concrete string. -/
theorem C10_truncation_total_witness :
    ("abc" : String).length ≤ 4000 ∧ pySlice "abc" 4000 = "abc" :=
  ⟨by decide, (C10_truncation_total "abc").2.2 (by decide)⟩
